import Mathlib

/-!
Verification of the 3GM model-decoder sources.

Shallow embedding of the decoder components that the checked claims are
about:

* byte-order helpers (ByteSwap, src/unnamed/part_004);
* the shape container (src/src/DataStructures/ShapeData.cpp);
* the vertex codecs (src/src/Processing/VertexProcessor.cpp);
* the chunk scanner (ChunkReader in src/Converter.cpp, ChunkHeader in
  src/unnamed/part_005, chunk-id table in src/unnamed/part_003);
* the header discriminator (src/src/Core/HeaderDetector.cpp);
* the primitive-type system (src/include/VertexProcessor.h) and the
  primitive-stream step of PrimitiveProcessor::ProcessPrimitiveData
  (src/src/Processing/SurfaceGenerator.cpp);
* the surface table (SurfaceGenerator in
  src/src/Processing/SurfaceGenerator.cpp, entry layouts in
  src/include/SurfaceData.h, error reporting in src/unnamed/part_008).

Machine integers are modelled as `Nat` (with explicit `% 2 ^ 32` where the
C++ arithmetic wraps) and as `Int` for the signed texture ids.  C++
`std::vector`s are modelled as a recorded size plus a total contents
function; reads through `operator[]` are unchecked in C++ and are therefore
modelled by applying the contents function without a bounds test, with the
recorded size available to state bounds facts.  Floats never participate in
any checked claim beyond their bit patterns, so float-typed lanes carry the
integer that the source casts or copies into them.
-/

namespace Model3GM

/-! ### Byte-order helpers (ByteSwap, src/unnamed/part_004) -/

/-- Truncation to 32 bits, the wrap-around of C++ `uint32_t` arithmetic. -/
def wrap32 (x : Nat) : Nat := x % 2 ^ 32

/-- ByteSwap::ApplyComplexByteSwap:
`(((input << 16) | (input & 0xFF00)) << 8) | (((input >> 16) | (input & 0xFF0000)) >> 8)`
with both left shifts wrapping at 32 bits. -/
def applyComplexByteSwap (v : Nat) : Nat :=
  (wrap32 ((wrap32 (v <<< 16) ||| (v &&& 0xFF00)) <<< 8)) |||
    (((v >>> 16) ||| (v &&& 0xFF0000)) >>> 8)

/-- ByteSwap::LittleToBigEndian32: the plain reverse-bytes swap32. -/
def littleToBigEndian32 (v : Nat) : Nat :=
  ((v &&& 0xFF) <<< 24) ||| ((v &&& 0xFF00) <<< 8) |||
    ((v &&& 0xFF0000) >>> 8) ||| ((v &&& 0xFF000000) >>> 24)

/-- ByteSwap::ReadLittleEndian32 over a byte list (missing bytes read 0;
every use below is guarded by the length check of the caller, as in the source). -/
def readLittleEndian32 (data : List Nat) (off : Nat) : Nat :=
  data.getD off 0 ||| (data.getD (off + 1) 0 <<< 8) |||
    (data.getD (off + 2) 0 <<< 16) ||| (data.getD (off + 3) 0 <<< 24)

/-! ### Shape container (ShapeData.cpp) -/

/-- GlobalVariables::GetVertexTerminator: the sentinel is the bit pattern of
`std::numeric_limits<float>::quiet_NaN()`, i.e. 0x7FC00000. -/
def vertexTerminator : Nat := 0x7FC00000

/-- ShapeData::AllocateVertexBuffer resizes the float vector to
`vertexCount * 8` entries (no extra slot). -/
def allocateVertexBufferLen (vertexCount : Nat) : Nat := vertexCount * 8

/-- ShapeData::IsValid, as a function of the fields it consults:
vertex count, vertex-buffer length and texture id. -/
def shapeDataIsValid (vertexCount bufLen : Nat) (textureId : Int) : Bool :=
  if vertexCount = 0 then false
  else if bufLen ≠ vertexCount * 8 then false
  else if textureId < -1 then false
  else true

/-! ### Vertex codecs (VertexProcessor.cpp)

Each codec fills an output float buffer; the buffer produced below lists, in
order, every float lane the codec defines: for each vertex the 8-wide record
(lanes the codec does not store keep the zero that `std::vector::resize`
put there), followed by the terminator stored one slot past the
`vertexCount * 8` data lanes. -/

/-- VertexProcessor::ConvertPackedToFloatVertices (Dot2 codec).  Per vertex:
read x at the cursor, advance the input cursor by three words, read y and z
two and one words back, store into lanes 0..2 of the 8-wide record; after
the loop store the terminator at the output cursor. -/
def convertPackedToFloatVertices (packedVertices : Nat → Nat) (vertexCount : Nat) :
    List Nat :=
  (List.range vertexCount).flatMap (fun i =>
    let xPacked := applyComplexByteSwap (packedVertices (3 * i))
    let cursor := 3 * i + 3
    let yPacked := applyComplexByteSwap (packedVertices (cursor - 2))
    let zPacked := applyComplexByteSwap (packedVertices (cursor - 1))
    [xPacked, yPacked, zPacked, 0, 0, 0, 0, 0])
  ++ [vertexTerminator]

/-- VertexProcessor::ConvertPackedToFloatVertices3Component (sequential
variant): lanes 0..2 of record i hold the complex-swapped input words
3i, 3i+1, 3i+2; terminator appended after the loop. -/
def convertPackedToFloatVertices3Component (packedVertices : Nat → Nat)
    (vertexCount : Nat) : List Nat :=
  (List.range vertexCount).flatMap (fun i =>
    [applyComplexByteSwap (packedVertices (3 * i)),
     applyComplexByteSwap (packedVertices (3 * i + 1)),
     applyComplexByteSwap (packedVertices (3 * i + 2)),
     0, 0, 0, 0, 0])
  ++ [vertexTerminator]

/-- VertexProcessor::Sub4F2950Rearrangement: copies the first three words of
its input into an 8-word zero-initialized scratch and returns the scratch. -/
def sub4F2950Rearrangement (input : Nat → Nat) : List Nat :=
  [input 0, input 1, input 2, 0, 0, 0, 0, 0]

/-- The per-vertex loop of VertexProcessor::DecrunchDotsVertices.  The input
cursor `inOff` is advanced past the three 16-bit coordinate fields but the
input is never dereferenced; the record copied to the output is built by
`sub4F2950Rearrangement` from the uninitialized stack buffer `localBuffer`
(modelled as an arbitrary contents function per iteration `idx`). -/
def decrunchLoop (compressedData : Nat → Nat) (localBuffer : Nat → Nat → Nat)
    (inOff idx : Nat) : Nat → List (List Nat)
  | 0 => []
  | k + 1 =>
    let inOff2 := inOff + 2 + 2 + 2
    let tempOutput := sub4F2950Rearrangement (localBuffer idx)
    tempOutput :: decrunchLoop compressedData localBuffer inOff2 (idx + 1) k

/-- VertexProcessor::DecrunchDotsVertices: skip the six 4-byte compression
parameters, run the per-vertex loop, then store the terminator.  Returns the
list of emitted 8-lane records and the terminator value. -/
def decrunchDotsVertices (compressedData : Nat → Nat) (localBuffer : Nat → Nat → Nat)
    (vertexCount : Nat) : List (List Nat) × Nat :=
  let inOff := 0 + 4 + 4 + 4 + 4 + 4 + 4
  (decrunchLoop compressedData localBuffer inOff 0 vertexCount, vertexTerminator)

/-! ### Chunk types and scanner (part_003, part_005, ChunkReader in Converter.cpp) -/

/-- ChunkType enum (src/unnamed/part_003). -/
inductive ChunkType where
  | Dot2 | FDot | Prim | Line | soPF | FPos | TxNm | End | Unknown
deriving DecidableEq

/-- GetChunkTypeFromRawID (src/unnamed/part_003). -/
def getChunkTypeFromRawID (rawID : Nat) : ChunkType :=
  if rawID = 0x32746f44 then ChunkType.Dot2
  else if rawID = 0x746f4446 then ChunkType.FDot
  else if rawID = 0x6d697250 then ChunkType.Prim
  else if rawID = 0x656e694c then ChunkType.Line
  else if rawID = 0x46506f73 then ChunkType.soPF
  else if rawID = 0x736f5046 then ChunkType.FPos
  else if rawID = 0x6d4e7854 then ChunkType.TxNm
  else if rawID = 0x20646e45 then ChunkType.End
  else ChunkType.Unknown

/-- ChunkHeader (src/unnamed/part_005). -/
structure ChunkHeader where
  rawID : Nat
  size : Nat
  type : ChunkType
deriving DecidableEq

/-- ChunkHeader two-argument constructor: the type is parsed from the raw id. -/
def mkChunkHeader (id dataSize : Nat) : ChunkHeader :=
  ⟨id, dataSize, getChunkTypeFromRawID id⟩

/-- ChunkHeader::IsValid: `rawID != 0 && type != ChunkType::Unknown`. -/
def chunkHeaderIsValid (h : ChunkHeader) : Bool :=
  decide (h.rawID ≠ 0) && decide (h.type ≠ ChunkType.Unknown)

/-- ChunkHeader::IsEndMarker. -/
def chunkHeaderIsEndMarker (h : ChunkHeader) : Bool :=
  decide (h.type = ChunkType.End)

/-- ChunkHeader::GetTotalSize: 8-byte header plus payload. -/
def chunkTotalSize (h : ChunkHeader) : Nat := 8 + h.size

/-- ChunkReader::ReadNextChunkHeader.  Returns the C++ boolean result and
the header out-parameter (left at its default when the 8-byte bound check
already fails).  Note the final `return header.IsValid()`: an in-bounds
chunk with an unknown id yields `false`. -/
def readNextChunkHeader (fileData : List Nat) (currentOffset : Nat) :
    Bool × ChunkHeader :=
  if currentOffset + 8 > fileData.length then (false, mkChunkHeader 0 0)
  else
    let chunkID := readLittleEndian32 fileData currentOffset
    let chunkSize := readLittleEndian32 fileData (currentOffset + 4)
    let header := mkChunkHeader chunkID chunkSize
    if currentOffset + chunkTotalSize header > fileData.length then (false, header)
    else (chunkHeaderIsValid header, header)

/-- The while loop of ChunkReader::ScanAllChunks, with explicit fuel (each
iteration advances the offset by at least 8 bytes, so `fileData.length + 1`
units of fuel always suffice).  Accumulates discovered headers in order;
stops when ReadNextChunkHeader returns false, after recording an End chunk,
or if SkipToNextChunk would fail its bound recheck. -/
def scanLoop (fileData : List Nat) : Nat → Nat → List ChunkHeader → List ChunkHeader
  | _, 0, acc => acc
  | currentOffset, fuel + 1, acc =>
    match readNextChunkHeader fileData currentOffset with
    | (false, _) => acc
    | (true, header) =>
      let acc2 := acc ++ [header]
      if chunkHeaderIsEndMarker header then acc2
      else if currentOffset + chunkTotalSize header > fileData.length then acc2
      else scanLoop fileData (currentOffset + chunkTotalSize header) fuel acc2

/-- ChunkReader::ScanAllChunks: the discovered chunk list. -/
def scanAllChunks (fileData : List Nat) (startOffset : Nat) : List ChunkHeader :=
  scanLoop fileData startOffset (fileData.length + 1) []

/-- The boolean ScanAllChunks returns: `!discoveredChunks_.empty()`. -/
def scanAllChunksResult (fileData : List Nat) (startOffset : Nat) : Bool :=
  !(scanAllChunks fileData startOffset).isEmpty

/-- ChunkReader::ValidateChunkStructure: discovered list non-empty and
containing an End marker. -/
def validateChunkStructure (discovered : List ChunkHeader) : Bool :=
  !discovered.isEmpty && discovered.any chunkHeaderIsEndMarker

/-- Parser3GM::ProcessChunk: a chunk whose type has no registered processor
is skipped gracefully (returns true); otherwise the result of the processor is
returned.  `registered` is the key set of `chunkProcessors_` and
`processorResult` the outcome that the registered processor reports. -/
def parserProcessChunk (registered : ChunkType → Bool) (processorResult : Bool)
    (h : ChunkHeader) : Bool :=
  if registered h.type then processorResult else true

/-! ### Header discriminator (HeaderDetector.cpp) -/

/-- HeaderType enum. -/
inductive HeaderType where
  | FullHeader | VersionOnly | NoHeader
deriving DecidableEq

/-- FileHeader record (src/include/PrimChunk.h); the default constructor
zeroes everything and sets NoHeader. -/
structure FileHeader where
  type : HeaderType
  magic : Nat
  version : Nat
  info : Nat
  headerSize : Nat
  chunkOffset : Nat
deriving DecidableEq

/-- FileHeader default constructor. -/
def defaultFileHeader : FileHeader := ⟨HeaderType.NoHeader, 0, 0, 0, 0, 0⟩

/-- HeaderDetector::IsValidVersionRange. -/
def isValidVersionRange (value : Nat) : Bool :=
  decide (0x01000100 ≤ value) && decide (value ≤ 0x10000100)

/-- HeaderDetector::DetectHeaderType. -/
def detectHeaderType (first4bytes : Nat) : HeaderType :=
  if first4bytes = 0x4D474433 then HeaderType.FullHeader
  else if isValidVersionRange first4bytes then HeaderType.VersionOnly
  else HeaderType.NoHeader

/-- HeaderDetector::DetectHeader.  A buffer shorter than 4 bytes returns the
default header; a magic match with fewer than 12 bytes is demoted to
NoHeader with the other fields left at their defaults. -/
def detectHeader (data : List Nat) : FileHeader :=
  if data.length < 4 then defaultFileHeader
  else
    let first4bytes := readLittleEndian32 data 0
    match detectHeaderType first4bytes with
    | HeaderType.FullHeader =>
      if data.length < 12 then { defaultFileHeader with type := HeaderType.NoHeader }
      else
        ⟨HeaderType.FullHeader, first4bytes, readLittleEndian32 data 4,
          readLittleEndian32 data 8, 12, 12⟩
    | HeaderType.VersionOnly => ⟨HeaderType.VersionOnly, 0, first4bytes, 0, 4, 4⟩
    | HeaderType.NoHeader => ⟨HeaderType.NoHeader, 0, 0, 0, 0, 0⟩

/-! ### Primitive-type system (src/include/VertexProcessor.h) -/

/-- PrimitiveFlags::GetFlagsForType, on raw 16-bit token values:
TriangleStrip 16646, QuadStrip 18190, TriangleList 20486, PointSprite 21251,
LineStrip 28422, ComplexPrimitive 30733; every other value (including
QuadStripInput 18189 and LineStripAlt 28423) falls to the default 0. -/
def getFlagsForType (t : Nat) : Nat :=
  if t = 16646 then 0x00000001 ||| 0x00010000
  else if t = 18190 then 0x00000101 ||| 0x00000100
  else if t = 20486 then 0x00000001 ||| 0x00010000
  else if t = 21251 then 0x00000001
  else if t = 28422 then 0x00000001 ||| 0x00000100
  else if t = 30733 then 0x00000101
  else 0

/-- PrimitiveTypeConverter::ConvertInputType: 18189 → 18190, 28423 → 21251. -/
def convertInputType (t : Nat) : Nat :=
  if t = 18189 then 18190
  else if t = 28423 then 21251
  else t

/-- PrimitiveUtils::IsControlConstant: EndMarker 24576 or Terminator 0xFFFE. -/
def isControlConstant (t : Nat) : Bool :=
  decide (t = 24576) || decide (t = 0xFFFE)

/-- The per-token step of PrimitiveProcessor::ProcessPrimitiveData for a
parsed type token: control tokens leave the flag register unchanged; for a
primitive token the register is overwritten via SetPrimitiveFlags with the
raw token value, and only afterwards is ConvertInputType applied to obtain
the dispatched type.  Returns (dispatched type, new flag register). -/
def processPrimitiveToken (token register : Nat) : Nat × Nat :=
  if isControlConstant token then (token, register)
  else (convertInputType token, getFlagsForType token)

/-- The per-index body of PrimitiveProcessor::ConvertToTriangleList,
accumulated in emission order: for m loop iterations, iteration i pushes
stripData[i], stripData[i+1], stripData[i+2]. -/
def stripTriangles (stripData : List Nat) : Nat → List Nat
  | 0 => []
  | m + 1 =>
    stripTriangles stripData m ++
      [stripData.getD m 0, stripData.getD (m + 1) 0, stripData.getD (m + 2) 0]

/-- PrimitiveProcessor::ConvertToTriangleList: empty for fewer than 3
indices, otherwise the loop runs for count - 2 iterations. -/
def convertToTriangleList (stripData : List Nat) : List Nat :=
  if stripData.length < 3 then []
  else stripTriangles stripData (stripData.length - 2)

/-! ### Surface generator (SurfaceGenerator.cpp, SurfaceData.h, part_008) -/

/-- SurfaceHashEntry (16-byte record; padding and reserved bytes omitted as
they carry no information). -/
structure SurfaceHashEntry where
  searchKey : Nat
  surfaceID : Nat
  nextEntry : Int
deriving DecidableEq

/-- SurfaceTableEntry (8-byte record). -/
structure SurfaceTableEntry where
  textureID : Int
  primitiveType : Nat
  flags : Nat
  status : Nat
deriving DecidableEq

/-- SurfaceTableEntry::IsActive: status bit 0. -/
def entryIsActive (e : SurfaceTableEntry) : Bool := decide (e.status &&& 0x01 ≠ 0)

/-- SurfaceTableEntry::SetActive. -/
def entrySetActive (e : SurfaceTableEntry) (active : Bool) : SurfaceTableEntry :=
  if active then { e with status := e.status ||| 0x01 }
  else { e with status := e.status &&& 0xFFFE }

/-- SurfaceTableEntry::SetAlpha: status bit 1. -/
def entrySetAlpha (e : SurfaceTableEntry) (alpha : Bool) : SurfaceTableEntry :=
  if alpha then { e with status := e.status ||| 0x02 }
  else { e with status := e.status &&& 0xFFFD }

/-- The SurfaceGenerator state together with the ErrorHandler globals it
consults (`lastProcessedEvent` is ErrorHandler::g_lastProcessedEvent;
`postedEvents` records the codes passed to PostEvent, the observable
diagnostic output).  Vectors are a recorded size plus total contents
function (unchecked `operator[]` reads apply the function directly). -/
@[ext]
structure SurfState where
  maxTextures : Int
  maxSurfaces : Int
  textureHashTableSize : Nat
  textureHashTable : Nat → Int
  hashCollisionSize : Nat
  hashCollisionData : Nat → SurfaceHashEntry
  surfaceTableSize : Nat
  surfaceTable : Nat → SurfaceTableEntry
  systemReady : Bool
  nextSurfaceID : Nat
  nextHashEntry : Nat
  lastProcessedEvent : Bool
  postedEvents : List Nat

/-- ErrorHandler::PostEvent: sets the sticky error flag, records the code. -/
def postEvent (s : SurfState) (code : Nat) : SurfState :=
  { s with lastProcessedEvent := true, postedEvents := s.postedEvents ++ [code] }

/-- ErrorHandler::ProcessEvent: critical codes 0x6A and 0x64 set the flag
and report failure; every other code is processed successfully. -/
def processEvent (s : SurfState) (code : Nat) : Bool × SurfState :=
  if code = 0x6A ∨ code = 0x64 then (false, { s with lastProcessedEvent := true })
  else (true, s)

/-- SurfaceGenerator::Initialize: `textureHashTable_.resize(maxTextures, -1)`
(note: maxTextures entries, not maxTextures + 1),
`hashCollisionData_.resize(maxSurfaces * 2)` with default-constructed
entries, `surfaceTable_.resize(maxSurfaces)` followed by InitializeSurface
on each entry (which leaves the default ⟨-1, 0, 0, 0⟩), surface id 0
reserved. -/
def surfaceGeneratorInit (maxTextures maxSurfaces : Int) : SurfState where
  maxTextures := maxTextures
  maxSurfaces := maxSurfaces
  textureHashTableSize := maxTextures.toNat
  textureHashTable := fun _ => -1
  hashCollisionSize := (maxSurfaces * 2).toNat
  hashCollisionData := fun _ => ⟨0, 0, -1⟩
  surfaceTableSize := maxSurfaces.toNat
  surfaceTable := fun _ => ⟨-1, 0, 0, 0⟩
  systemReady := true
  nextSurfaceID := 1
  nextHashEntry := 0
  lastProcessedEvent := false
  postedEvents := []

/-- SurfaceGenerator::IsValidTextureID. -/
def isValidTextureID (s : SurfState) (textureID : Int) : Bool :=
  decide (textureID ≥ -1) && decide (textureID < s.maxTextures)

/-- SurfaceGenerator::IsValidSurfaceID. -/
def isValidSurfaceID (s : SurfState) (surfaceID : Nat) : Bool :=
  decide (surfaceID > 0) && decide ((surfaceID : Int) < s.maxSurfaces)

/-- The collision-chain while loop of SurfaceGenerator::GetSurfaceHash,
with explicit fuel (the C++ loop terminates only by key match or a -1
link; `none` marks fuel exhaustion, which cannot occur on the acyclic
chains the generator builds). -/
def searchChain (d : Nat → SurfaceHashEntry) (searchKey : Nat) :
    Int → Nat → Option Nat
  | _, 0 => none
  | hashEntry, fuel + 1 =>
    let e := d hashEntry.toNat
    if e.searchKey = searchKey then some e.surfaceID
    else if e.nextEntry = -1 then some 0xFFFF
    else searchChain d searchKey e.nextEntry fuel

/-- SurfaceGenerator::GetSurfaceHash: texture bounds check (PostEvent 800 on
failure), chain-head read at index textureID + 1, then the chain walk with
search key `(primitiveType << 16) | flags`.  Returns 0xFFFF on miss. -/
def getSurfaceHash (s : SurfState) (primitiveType : Nat) (textureID : Int)
    (flags : Nat) : Option (Nat × SurfState) :=
  if textureID ≥ s.maxTextures ∨ textureID < -1 then
    some (0xFFFF, postEvent s 800)
  else
    let chk := if s.systemReady then (true, s) else processEvent s 0x960
    if chk.1 = false then some (0xFFFF, chk.2)
    else
      let s0 := chk.2
      let hashEntry := s0.textureHashTable (textureID + 1).toNat
      if hashEntry = -1 then some (0xFFFF, s0)
      else
        let searchKey := (primitiveType <<< 16) ||| flags
        (searchChain s0.hashCollisionData searchKey hashEntry
            (s0.hashCollisionSize + 1)).map (fun r => (r, s0))

/-- SurfaceGenerator::InitializeSurface: reset fields, clear the alpha bit,
keep the active bit; no-op outside the valid surface-id range. -/
def initSurfaceEntry (s : SurfState) (surfaceID : Nat) : SurfState :=
  if isValidSurfaceID s surfaceID = false then s
  else
    { s with surfaceTable := fun j =>
        if j = surfaceID then
          { textureID := -1, primitiveType := 0, flags := 0,
            status := (s.surfaceTable surfaceID).status &&& 0xFFFD }
        else s.surfaceTable j }

/-- SurfaceGenerator::GetNewSurface: fails with PostEvent 2402 at the
surface limit, with PostEvent 2403 if the slot is already active; otherwise
increments the id counter, marks the slot active and reinitializes it. -/
def getNewSurface (s : SurfState) : Nat × SurfState :=
  if (s.nextSurfaceID : Int) ≥ s.maxSurfaces then (0, postEvent s 2402)
  else
    let newSurfaceID := s.nextSurfaceID
    let s1 := { s with nextSurfaceID := s.nextSurfaceID + 1 }
    if entryIsActive (s1.surfaceTable newSurfaceID) then (0, postEvent s1 2403)
    else
      let s2 := { s1 with surfaceTable := fun j =>
        if j = newSurfaceID then entrySetActive (s1.surfaceTable newSurfaceID) true
        else s1.surfaceTable j }
      (newSurfaceID, initSurfaceEntry s2 newSurfaceID)

/-- SurfaceGenerator::UpdateSurfaceAlphaFlag: PostEvent 2404 on an invalid
or inactive id; otherwise sets the alpha bit iff the primitive type is
TriangleStrip (16646). -/
def updateSurfaceAlphaFlag (s : SurfState) (surfaceID : Nat) : Bool × SurfState :=
  if isValidSurfaceID s surfaceID = false ∨
      entryIsActive (s.surfaceTable surfaceID) = false then
    (false, postEvent s 2404)
  else
    let hasAlpha := decide ((s.surfaceTable surfaceID).primitiveType = 16646)
    (true, { s with surfaceTable := fun j =>
      if j = surfaceID then entrySetAlpha (s.surfaceTable surfaceID) hasAlpha
      else s.surfaceTable j })

/-- SurfaceGenerator::SetSurfaceInfo: validity and activity checks
(PostEvent 2402 / 2404), store the three parameters, then update alpha. -/
def setSurfaceInfo (s : SurfState) (surfaceID primitiveType : Nat)
    (textureID : Int) (flags : Nat) : Bool × SurfState :=
  if isValidSurfaceID s surfaceID = false then (false, postEvent s 2402)
  else if entryIsActive (s.surfaceTable surfaceID) = false then
    (false, postEvent s 2404)
  else
    let s1 := { s with surfaceTable := fun j =>
      if j = surfaceID then
        { s.surfaceTable surfaceID with
            primitiveType := primitiveType, textureID := textureID, flags := flags }
      else s.surfaceTable j }
    updateSurfaceAlphaFlag s1 surfaceID

/-- The linear probe of SurfaceGenerator::FindFreeHashEntry, scanning
`remaining` slots upward from `i` for one with surfaceID 0. -/
def searchFreeFrom (d : Nat → SurfaceHashEntry) (i : Nat) : Nat → Option Nat
  | 0 => none
  | remaining + 1 =>
    if (d i).surfaceID = 0 then some i else searchFreeFrom d (i + 1) remaining

/-- SurfaceGenerator::FindFreeHashEntry: scan from nextHashEntry_ to the end
of the pool, then wrap to the beginning; on success advance nextHashEntry_
past the slot; 0xFFFF when the pool is exhausted. -/
def findFreeHashEntry (s : SurfState) : Nat × SurfState :=
  match searchFreeFrom s.hashCollisionData s.nextHashEntry
      (s.hashCollisionSize - s.nextHashEntry) with
  | some i => (i, { s with nextHashEntry := i + 1 })
  | none =>
    match searchFreeFrom s.hashCollisionData 0 s.nextHashEntry with
    | some i => (i, { s with nextHashEntry := i + 1 })
    | none => (0xFFFF, s)

/-- SurfaceGenerator::AddSurfaceHash: id and texture validity checks, take a
free hash entry (PostEvent 0x6A when none), fill its search key and surface
id, and push it as the new head of the collision chain of that texture at index
textureID + 1. -/
def addSurfaceHash (s : SurfState) (surfaceID : Nat) : Bool × SurfState :=
  if isValidSurfaceID s surfaceID = false then (false, s)
  else
    let surf := s.surfaceTable surfaceID
    if isValidTextureID s surf.textureID = false then (false, s)
    else
      let probe := findFreeHashEntry s
      if probe.1 = 0xFFFF then (false, postEvent probe.2 0x6A)
      else
        let s1 := probe.2
        let currentFirst := s1.textureHashTable (surf.textureID + 1).toNat
        let s2 := { s1 with
          hashCollisionData := fun j =>
            if j = probe.1 then
              ⟨(surf.primitiveType <<< 16) ||| surf.flags, surfaceID, currentFirst⟩
            else s1.hashCollisionData j,
          textureHashTable := fun j =>
            if j = (surf.textureID + 1).toNat then (probe.1 : Int)
            else s1.textureHashTable j }
        (true, s2)

/-- SurfaceGenerator::GetOrCreateSurface: look up the key; on a miss
allocate a new surface (checking the sticky error flag afterwards, as the
source does), store its parameters and add it to the hash; on a hit just
update the alpha flag of the existing surface.  `none` only propagates the
fuel exhaustion of `searchChain`, which no reachable state produces. -/
def getOrCreateSurface (s : SurfState) (primitiveType : Nat) (textureID : Int)
    (flags : Nat) : Option (Nat × SurfState) :=
  let chk := if s.systemReady then (true, s) else processEvent s 0x960
  if chk.1 = false then some (0, chk.2)
  else
    (getSurfaceHash chk.2 primitiveType textureID flags).bind (fun r =>
      let surfaceID := r.1
      let s1 := r.2
      if surfaceID = 0xFFFF then
        let alloc := getNewSurface s1
        if alloc.2.lastProcessedEvent then some (0, alloc.2)
        else
          let info := setSurfaceInfo alloc.2 alloc.1 primitiveType textureID flags
          if info.1 = false then some (0, info.2)
          else
            let hash := addSurfaceHash info.2 alloc.1
            if hash.1 = false then some (0, hash.2)
            else some (alloc.1, hash.2)
      else
        let upd := updateSurfaceAlphaFlag s1 surfaceID
        if upd.1 = false then some (0, upd.2)
        else some (surfaceID, upd.2))

/-- Closed form of the generator state after k successful calls
`getOrCreateSurface · 0 0 i` (i = 0 .. k-1) on the default-initialized
state: surfaces 1..k allocated, hash entries 0..k-1 used with search keys
equal to their index and a descending chain headed at k-1 for texture 0. -/
def modelState (k : Nat) : SurfState where
  maxTextures := 1000
  maxSurfaces := 2000
  textureHashTableSize := 1000
  textureHashTable := fun j => if j = 1 then (k : Int) - 1 else -1
  hashCollisionSize := 4000
  hashCollisionData := fun i =>
    if i < k then ⟨i, i + 1, (i : Int) - 1⟩ else ⟨0, 0, -1⟩
  surfaceTableSize := 2000
  surfaceTable := fun j =>
    if 1 ≤ j ∧ j ≤ k then ⟨0, 0, j - 1, 1⟩ else ⟨-1, 0, 0, 0⟩
  systemReady := true
  nextSurfaceID := k + 1
  nextHashEntry := k
  lastProcessedEvent := false
  postedEvents := []

/-- The sequence of distinct-key calls of the surface-limit scenario:
`runCalls k` is the state after the first k calls, call i using the key
(primitiveType 0, textureID 0, flags i) — pairwise distinct keys. -/
def runCalls : Nat → Option SurfState
  | 0 => some (surfaceGeneratorInit 1000 2000)
  | k + 1 => (runCalls k).bind fun s =>
      (getOrCreateSurface s 0 0 k).map Prod.snd

/-- The surface id returned by call k + 1 (the call with flags k) of the
distinct-key sequence. -/
def callResult (k : Nat) : Option Nat :=
  (runCalls k).bind fun s => (getOrCreateSurface s 0 0 k).map Prod.fst

/-- Concrete input for the unknown-chunk scenario: a chunk with unknown id
0xDEADBEEF and size 0, followed by a well-formed `End ` chunk of size 0. -/
def unknownThenEndFile : List Nat :=
  [0xEF, 0xBE, 0xAD, 0xDE, 0, 0, 0, 0, 0x45, 0x6E, 0x64, 0x20, 0, 0, 0, 0]

/-- The generator state after one call
`getOrCreateSurface (surfaceGeneratorInit 1000 2000) pt tid fl` with a
texture id in bounds: surface 1 allocated and holding the key, hash entry 0
used, the chain for `tid` headed at entry 0. -/
def c4State1 (pt : Nat) (tid : Int) (fl : Nat) : SurfState where
  maxTextures := 1000
  maxSurfaces := 2000
  textureHashTableSize := 1000
  textureHashTable := fun j => if j = (tid + 1).toNat then 0 else -1
  hashCollisionSize := 4000
  hashCollisionData := fun i =>
    if i = 0 then ⟨(pt <<< 16) ||| fl, 1, -1⟩ else ⟨0, 0, -1⟩
  surfaceTableSize := 2000
  surfaceTable := fun j =>
    if j = 1 then ⟨tid, pt, fl, if pt = 16646 then 3 else 1⟩ else ⟨-1, 0, 0, 0⟩
  systemReady := true
  nextSurfaceID := 2
  nextHashEntry := 1
  lastProcessedEvent := false
  postedEvents := []

end Model3GM

namespace Model3GM

/-! ### Bitwise groundwork for the byte-swap claims -/

theorem wrap32_testBit (x i : Nat) :
    (wrap32 x).testBit i = (decide (i < 32) && x.testBit i) := by
  unfold wrap32
  rw [Nat.testBit_mod_two_pow]

theorem wrap32_mod_two (x : Nat) : wrap32 x % 2 = x % 2 := by
  unfold wrap32
  omega

theorem testBitFF (i : Nat) : Nat.testBit 255 i = decide (i < 8) := by
  have h : (255 : Nat) = 2 ^ 8 - 1 := by norm_num
  rw [h, Nat.testBit_two_pow_sub_one]

theorem testBitFF00 (i : Nat) :
    Nat.testBit 65280 i = (decide (8 ≤ i) && decide (i < 16)) := by
  have h : (65280 : Nat) = (2 ^ 8 - 1) <<< 8 := by decide
  rw [h, Nat.testBit_shiftLeft, Nat.testBit_two_pow_sub_one]
  by_cases h8 : 8 ≤ i
  · have he : (i - 8 < 8) = (i < 16) := by
      apply propext; omega
    simp [h8, he]
  · simp [h8]

theorem testBitFF0000 (i : Nat) :
    Nat.testBit 16711680 i = (decide (16 ≤ i) && decide (i < 24)) := by
  have h : (16711680 : Nat) = (2 ^ 8 - 1) <<< 16 := by decide
  rw [h, Nat.testBit_shiftLeft, Nat.testBit_two_pow_sub_one]
  by_cases h16 : 16 ≤ i
  · have he : (i - 16 < 8) = (i < 24) := by
      apply propext; omega
    simp [h16, he]
  · simp [h16]

theorem testBitFF000000 (i : Nat) :
    Nat.testBit 4278190080 i = (decide (24 ≤ i) && decide (i < 32)) := by
  have h : (4278190080 : Nat) = (2 ^ 8 - 1) <<< 24 := by decide
  rw [h, Nat.testBit_shiftLeft, Nat.testBit_two_pow_sub_one]
  by_cases h24 : 24 ≤ i
  · have he : (i - 24 < 8) = (i < 32) := by
      apply propext; omega
    simp [h24, he]
  · simp [h24]

theorem applyComplexByteSwap_eq_littleToBig (v : Nat) (hv : v < 2 ^ 32) :
    applyComplexByteSwap v = littleToBigEndian32 v := by
  have hbit : ∀ j, 32 ≤ j → v.testBit j = false := by
    intro j hj
    exact Nat.testBit_lt_two_pow
      (lt_of_lt_of_le hv (Nat.pow_le_pow_right (by norm_num) hj))
  apply Nat.eq_of_testBit_eq
  intro i
  unfold applyComplexByteSwap littleToBigEndian32
  rcases Nat.lt_or_ge i 32 with hi | hi
  · interval_cases i <;>
      simp [wrap32_testBit, wrap32_mod_two, testBitFF, testBitFF00, testBitFF0000,
        testBitFF000000, hbit]
  · have g1 : ¬ i < 32 := by omega
    have g2 : ¬ i - 24 < 8 := by omega
    have g3 : ¬ i - 8 < 16 := by omega
    have g4 : 32 ≤ 16 + (8 + i) := by omega
    have g5 : 32 ≤ 8 + i := by omega
    have g6 : 32 ≤ 24 + i := by omega
    have g7 : 32 ≤ i := by omega
    simp [wrap32_testBit, wrap32_mod_two, testBitFF, testBitFF00, testBitFF0000,
      testBitFF000000, g1, g2, g3, hbit _ g4, hbit _ g5, hbit _ g6, hbit _ g7]

theorem littleToBigEndian32_lt (v : Nat) : littleToBigEndian32 v < 2 ^ 32 := by
  unfold littleToBigEndian32
  have hb : ∀ m k n : Nat, m < 2 ^ n → (v &&& m) <<< k < 2 ^ (n + k) := by
    intro m k n hm
    rw [Nat.shiftLeft_eq, Nat.pow_add]
    exact Nat.mul_lt_mul_of_lt_of_le (Nat.and_lt_two_pow v hm) (le_refl _)
      (Nat.pos_pow_of_pos k (by norm_num))
  have hs : ∀ m k n : Nat, m < 2 ^ n → (v &&& m) >>> k < 2 ^ n := by
    intro m k n hm
    calc (v &&& m) >>> k ≤ v &&& m := by
          rw [Nat.shiftRight_eq_div_pow]
          exact Nat.div_le_self _ _
      _ < 2 ^ n := Nat.and_lt_two_pow v hm
  apply Nat.or_lt_two_pow
  apply Nat.or_lt_two_pow
  apply Nat.or_lt_two_pow
  · exact hb 255 24 8 (by norm_num)
  · exact lt_trans (hb 65280 8 16 (by norm_num)) (by norm_num)
  · exact lt_trans (hs 16711680 8 24 (by norm_num)) (by norm_num)
  · exact hs 4278190080 24 32 (by norm_num)

theorem littleToBigEndian32_invol (v : Nat) (hv : v < 2 ^ 32) :
    littleToBigEndian32 (littleToBigEndian32 v) = v := by
  have hbit : ∀ j, 32 ≤ j → v.testBit j = false := by
    intro j hj
    exact Nat.testBit_lt_two_pow
      (lt_of_lt_of_le hv (Nat.pow_le_pow_right (by norm_num) hj))
  apply Nat.eq_of_testBit_eq
  intro i
  rcases Nat.lt_or_ge i 32 with hi | hi
  · unfold littleToBigEndian32
    interval_cases i <;>
      simp [testBitFF, testBitFF00, testBitFF0000, testBitFF000000, hbit]
  · have gb : littleToBigEndian32 (littleToBigEndian32 v) < 2 ^ 32 :=
      littleToBigEndian32_lt _
    rw [Nat.testBit_lt_two_pow (lt_of_lt_of_le gb
      (Nat.pow_le_pow_right (by norm_num) hi)), hbit i hi]

/-- C7: for every 32-bit value v, complex_swap32(v) equals the plain
reverse-bytes swap32(v), complex_swap32 is an involution, and the five
validation vectors hold. -/
theorem claim_C7_complexSwap (v : Nat) (hv : v < 2 ^ 32) :
    applyComplexByteSwap v = littleToBigEndian32 v ∧
    applyComplexByteSwap (applyComplexByteSwap v) = v ∧
    applyComplexByteSwap 0x12345678 = 0x78563412 ∧
    applyComplexByteSwap 0x01020304 = 0x04030201 ∧
    applyComplexByteSwap 0xFF00FF00 = 0x00FF00FF ∧
    applyComplexByteSwap 0x00000000 = 0x00000000 ∧
    applyComplexByteSwap 0xFFFFFFFF = 0xFFFFFFFF := by
  refine ⟨applyComplexByteSwap_eq_littleToBig v hv, ?_, by decide, by decide,
    by decide, by decide, by decide⟩
  rw [applyComplexByteSwap_eq_littleToBig v hv,
    applyComplexByteSwap_eq_littleToBig (littleToBigEndian32 v)
      (littleToBigEndian32_lt v)]
  exact littleToBigEndian32_invol v hv

/-- Witness for C7 at the concrete input 0x12345678. -/
theorem claim_C7_complexSwap_witness :
    (0x12345678 : Nat) < 2 ^ 32 ∧
      applyComplexByteSwap 0x12345678 = littleToBigEndian32 0x12345678 ∧
      applyComplexByteSwap (applyComplexByteSwap 0x12345678) = 0x12345678 :=
  ⟨by norm_num,
    (claim_C7_complexSwap 0x12345678 (by norm_num)).1,
    (claim_C7_complexSwap 0x12345678 (by norm_num)).2.1⟩

end Model3GM

namespace Model3GM

/-! ### Vertex-codec buffer layout (C1) -/

theorem flatMapRange_const8_length (f : Nat → List Nat) (hf : ∀ i, (f i).length = 8) :
    ∀ n, ((List.range n).flatMap f).length = 8 * n := by
  intro n
  induction n with
  | zero => simp
  | succ n ih =>
    rw [List.range_succ, List.flatMap_append]
    simp only [List.length_append, ih, List.flatMap_cons, List.flatMap_nil,
      List.append_nil, hf n]
    omega

theorem decrunchLoop_flatten_length (cd : Nat → Nat) (lb : Nat → Nat → Nat) :
    ∀ k inOff idx, ((decrunchLoop cd lb inOff idx k).flatten).length = 8 * k := by
  intro k
  induction k with
  | zero => intro inOff idx; simp [decrunchLoop]
  | succ k ih =>
    intro inOff idx
    simp only [decrunchLoop, sub4F2950Rearrangement, List.flatten_cons,
      List.length_append, ih]
    simp
    omega

/-- C1: every decoded vertex buffer as written by the codecs has
vertex_count * 8 + 1 float lanes with the vertex-terminator bit pattern in
the final slot — but ShapeData::AllocateVertexBuffer provides only
vertex_count * 8 slots and ShapeData::IsValid accepts exactly length
vertex_count * 8, rejecting the buffer the codecs produce (code bug:
the terminator store lands one slot past the allocation and the post-decode
validation rejects terminated buffers). -/
theorem claim_C1_vertexBufferLayout (packed cd : Nat → Nat)
    (lb : Nat → Nat → Nat) (n : Nat) :
    (convertPackedToFloatVertices packed n).length = n * 8 + 1 ∧
    (convertPackedToFloatVertices packed n).getLast? = some vertexTerminator ∧
    (convertPackedToFloatVertices3Component packed n).length = n * 8 + 1 ∧
    (convertPackedToFloatVertices3Component packed n).getLast? =
      some vertexTerminator ∧
    ((decrunchDotsVertices cd lb n).1.flatten ++
      [(decrunchDotsVertices cd lb n).2]).length = n * 8 + 1 ∧
    (decrunchDotsVertices cd lb n).2 = vertexTerminator ∧
    allocateVertexBufferLen n = n * 8 ∧
    shapeDataIsValid n (n * 8 + 1) 0 = false ∧
    shapeDataIsValid 1 8 0 = true := by
  have hinvalid : shapeDataIsValid n (n * 8 + 1) 0 = false := by
    unfold shapeDataIsValid
    rcases n with _ | m
    · simp
    · have hne : (m + 1) * 8 + 1 ≠ (m + 1) * 8 := by omega
      simp [hne]
  refine ⟨?_, ?_, ?_, ?_, ?_, rfl, rfl, hinvalid, by decide⟩
  · unfold convertPackedToFloatVertices
    rw [List.length_append, flatMapRange_const8_length]
    · simp
      omega
    · intro i
      rfl
  · unfold convertPackedToFloatVertices
    exact List.getLast?_concat _
  · unfold convertPackedToFloatVertices3Component
    rw [List.length_append, flatMapRange_const8_length]
    · simp
      omega
    · intro i
      rfl
  · unfold convertPackedToFloatVertices3Component
    exact List.getLast?_concat _
  · unfold decrunchDotsVertices
    rw [List.length_append, decrunchLoop_flatten_length]
    simp
    omega

/-! ### Unknown chunks abort the scan (C2) -/

/-- C2: an input containing an unknown chunk does not decode: contrary to
the claim, ChunkReader::ReadNextChunkHeader returns ChunkHeader::IsValid,
which is false for an unknown id, so ScanAllChunks stops at the unknown
chunk without scanning over it; on the concrete file of an unknown chunk
followed by End nothing is discovered, ScanAllChunks reports failure and
ValidateChunkStructure finds no End chunk — even though the dispatcher
Parser3GM::ProcessChunk would have skipped the chunk without error had it
ever been reached (code bug). -/
theorem claim_C2_unknownChunkAbortsScan :
    getChunkTypeFromRawID 0xDEADBEEF = ChunkType.Unknown ∧
    chunkHeaderIsValid (mkChunkHeader 0xDEADBEEF 0) = false ∧
    readNextChunkHeader unknownThenEndFile 0 = (false, mkChunkHeader 0xDEADBEEF 0) ∧
    readNextChunkHeader unknownThenEndFile 8 = (true, mkChunkHeader 0x20646E45 0) ∧
    scanAllChunks unknownThenEndFile 0 = [] ∧
    scanAllChunksResult unknownThenEndFile 0 = false ∧
    validateChunkStructure (scanAllChunks unknownThenEndFile 0) = false ∧
    (∀ processorResult : Bool,
      parserProcessChunk (fun _ => false) processorResult
        (mkChunkHeader 0xDEADBEEF 0) = true) := by
  decide

/-! ### Triangle-strip expansion (C3) -/

theorem stripTriangles_length (stripData : List Nat) :
    ∀ m, (stripTriangles stripData m).length = 3 * m := by
  intro m
  induction m with
  | zero => rfl
  | succ m ih =>
    simp only [stripTriangles, List.length_append, ih, List.length_cons,
      List.length_nil]
    omega

theorem stripTriangles_triple (stripData : List Nat) :
    ∀ m i, i < m →
      ((stripTriangles stripData m).drop (3 * i)).take 3 =
        [stripData.getD i 0, stripData.getD (i + 1) 0, stripData.getD (i + 2) 0] := by
  intro m
  induction m with
  | zero => intro i hi; omega
  | succ m ih =>
    intro i hi
    rcases Nat.lt_or_ge i m with him | him
    · rw [stripTriangles, List.drop_append_of_le_length
        (by rw [stripTriangles_length]; omega)]
      rw [List.take_append_of_le_length
        (by rw [List.length_drop, stripTriangles_length]; omega)]
      exact ih i him
    · have hieq : i = m := by omega
      subst hieq
      rw [stripTriangles, List.drop_append_of_le_length
        (by rw [stripTriangles_length]),
        List.drop_of_length_le (by rw [stripTriangles_length])]
      simp

/-- C3 counterexample: the strip 0,1,2,3 expands to [0,1,2, 1,2,3], not to
the claimed [0,1,2, 1,0,3] — no winding flip is applied at odd indices. -/
theorem claim_C3_counterexample :
    convertToTriangleList [0, 1, 2, 3] = [0, 1, 2, 1, 2, 3] ∧
    convertToTriangleList [0, 1, 2, 3] ≠ [0, 1, 2, 1, 0, 3] := by
  decide

/-- C3 (amended): for a strip of n indices (n ≥ 3), n - 2 triangles are
emitted, and triangle i is (s[i], s[i+1], s[i+2]) for every i — the first
two indices are never reversed, so 0,1,2,3 expands to [0,1,2, 1,2,3]. -/
theorem claim_C3_stripExpansion (stripData : List Nat) (i : Nat)
    (h3 : 3 ≤ stripData.length) (hi : i < stripData.length - 2) :
    (convertToTriangleList stripData).length = 3 * (stripData.length - 2) ∧
    ((convertToTriangleList stripData).drop (3 * i)).take 3 =
      [stripData.getD i 0, stripData.getD (i + 1) 0, stripData.getD (i + 2) 0] := by
  have hnot : ¬ stripData.length < 3 := by omega
  unfold convertToTriangleList
  rw [if_neg hnot]
  exact ⟨stripTriangles_length stripData _, stripTriangles_triple stripData _ i hi⟩

/-- Witness for C3 (amended) at the strip 0,1,2,3 and triangle index 1. -/
theorem claim_C3_stripExpansion_witness :
    3 ≤ ([0, 1, 2, 3] : List Nat).length ∧
    1 < ([0, 1, 2, 3] : List Nat).length - 2 ∧
    ((convertToTriangleList [0, 1, 2, 3]).drop 3).take 3 = [1, 2, 3] := by
  refine ⟨by decide, by decide, ?_⟩
  have h := (claim_C3_stripExpansion [0, 1, 2, 3] 1 (by decide) (by decide)).2
  exact h.trans (by decide)

end Model3GM

namespace Model3GM

/-! ### Header classification (C8) -/

/-- C8: header classification is a total function of the little-endian
first 4 bytes w plus the length thresholds: w = 0x4D474433 with at least 12
bytes yields FullHeader with header_size = chunk_offset = 12;
0x01000100 ≤ w ≤ 0x10000100 yields VersionOnly with version = w and
chunk_offset = 4; every other w yields NoHeader with chunk_offset = 0. -/
theorem claim_C8_headerClassification (data : List Nat) (h4 : 4 ≤ data.length) :
    (readLittleEndian32 data 0 = 0x4D474433 → 12 ≤ data.length →
      detectHeader data =
        ⟨HeaderType.FullHeader, 0x4D474433, readLittleEndian32 data 4,
          readLittleEndian32 data 8, 12, 12⟩) ∧
    (0x01000100 ≤ readLittleEndian32 data 0 →
      readLittleEndian32 data 0 ≤ 0x10000100 →
      detectHeader data =
        ⟨HeaderType.VersionOnly, 0, readLittleEndian32 data 0, 0, 4, 4⟩) ∧
    (readLittleEndian32 data 0 ≠ 0x4D474433 →
      ¬ (0x01000100 ≤ readLittleEndian32 data 0 ∧
          readLittleEndian32 data 0 ≤ 0x10000100) →
      detectHeader data = ⟨HeaderType.NoHeader, 0, 0, 0, 0, 0⟩) := by
  have hlen4 : ¬ data.length < 4 := by omega
  refine ⟨?_, ?_, ?_⟩
  · intro hm h12
    have hlen12 : ¬ data.length < 12 := by omega
    simp [detectHeader, detectHeaderType, hlen4, hlen12, hm]
  · intro hlo hhi
    have hm : readLittleEndian32 data 0 ≠ 0x4D474433 := by omega
    simp [detectHeader, detectHeaderType, isValidVersionRange, hlen4, hm, hlo, hhi]
  · intro hm hrange
    by_cases hlo : 0x01000100 ≤ readLittleEndian32 data 0
    · have hhi : ¬ readLittleEndian32 data 0 ≤ 0x10000100 := fun h => hrange ⟨hlo, h⟩
      simp [detectHeader, detectHeaderType, isValidVersionRange, hlen4, hm, hhi]
    · simp [detectHeader, detectHeaderType, isValidVersionRange, hlen4, hm, hlo]

/-- Witness for C8 at a concrete 4-byte version-only input. -/
theorem claim_C8_headerClassification_witness :
    detectHeader [0, 1, 0, 1] =
      ⟨HeaderType.VersionOnly, 0, 0x01000100, 0, 4, 4⟩ := by
  have h := (claim_C8_headerClassification [0, 1, 0, 1] (by decide)).2.1
    (by decide) (by decide)
  exact h.trans (by decide)

/-! ### Prim-stream flag register at a QuadStripInput token (C9) -/

/-- C9 counterexample: reading the type token QuadStripInput (18189) leaves
the primitive-flag register holding 0 (SetPrimitiveFlags runs on the raw
token, for which GetFlagsForType has no case), not the claimed 0x201;
moreover the flag value the code computes for the rewritten kind QuadStrip (18190) is
0x101, also not 0x201. -/
theorem claim_C9_counterexample :
    processPrimitiveToken 18189 0 = (18190, 0) ∧
    getFlagsForType 18190 = 0x101 ∧
    (0 : Nat) ≠ 0x201 ∧ (0x101 : Nat) ≠ 0x201 := by
  decide

/-- C9 (amended): when QuadStripInput (18189) is read, the in-stream
rewrite to QuadStrip (18190) is applied to the dispatched type, but the
flag register is updated before the rewrite from the raw input token, whose
GetFlagsForType value is the default 0 — so whatever the register held, it
is left holding 0. -/
theorem claim_C9_quadStripInputFlags (register : Nat) :
    processPrimitiveToken 18189 register = (18190, 0) := by
  simp [processPrimitiveToken, isControlConstant, convertInputType, getFlagsForType]

/-! ### DecrunchDots ignores its coordinate input (C10) -/

theorem decrunchLoop_ignores_input (d1 d2 : Nat → Nat) (lb : Nat → Nat → Nat) :
    ∀ k inOff1 inOff2 idx,
      decrunchLoop d1 lb inOff1 idx k = decrunchLoop d2 lb inOff2 idx k := by
  intro k
  induction k with
  | zero => intro inOff1 inOff2 idx; rfl
  | succ k ih =>
    intro inOff1 inOff2 idx
    simp only [decrunchLoop, List.cons.injEq]
    exact ⟨trivial, ih _ _ _⟩

theorem decrunchLoop_tail_lanes (d : Nat → Nat) (lb : Nat → Nat → Nat) :
    ∀ k inOff idx r, r ∈ decrunchLoop d lb inOff idx k →
      r.drop 3 = [0, 0, 0, 0, 0] := by
  intro k
  induction k with
  | zero => intro inOff idx r hr; cases hr
  | succ k ih =>
    intro inOff idx r hr
    rcases List.mem_cons.mp hr with hr | hr
    · subst hr; rfl
    · exact ih _ _ r hr

/-- C10: DecrunchDotsVertices never reads the per-vertex coordinate fields:
for any two input payloads (same vertex count, same uninitialized stack
contents) the decoder produces identical output, and lanes 3..7 of every
emitted 8-lane record are zero — the compressed coordinate data has no
influence on the result. -/
theorem claim_C10_decrunchIgnoresCoordinates (d1 d2 : Nat → Nat)
    (lb : Nat → Nat → Nat) (n : Nat) :
    decrunchDotsVertices d1 lb n = decrunchDotsVertices d2 lb n ∧
    ∀ r ∈ (decrunchDotsVertices d1 lb n).1, r.drop 3 = [0, 0, 0, 0, 0] := by
  constructor
  · simp only [decrunchDotsVertices]
    rw [decrunchLoop_ignores_input d1 d2 lb n _ _ 0]
  · intro r hr
    exact decrunchLoop_tail_lanes d1 lb n _ 0 r hr

/-- Witness for C10: two payloads differing in every coordinate byte give
the same output, whose single record has zero lanes 3..7. -/
theorem claim_C10_decrunchIgnoresCoordinates_witness :
    decrunchDotsVertices (fun _ => 0) (fun _ _ => 7) 1 =
      decrunchDotsVertices (fun _ => 255) (fun _ _ => 7) 1 ∧
    ([7, 7, 7, 0, 0, 0, 0, 0] : List Nat).drop 3 = [0, 0, 0, 0, 0] :=
  ⟨(claim_C10_decrunchIgnoresCoordinates (fun _ => 0) (fun _ => 255)
      (fun _ _ => 7) 1).1,
   (claim_C10_decrunchIgnoresCoordinates (fun _ => 0) (fun _ => 255)
      (fun _ _ => 7) 1).2 [7, 7, 7, 0, 0, 0, 0, 0] (by decide)⟩

end Model3GM

namespace Model3GM

/-! ### Surface-generator evaluation lemmas (C4, C5, C6) -/

theorem searchFreeFrom_head (d : Nat → SurfaceHashEntry) (i r : Nat)
    (h : (d i).surfaceID = 0) (hr : 0 < r) : searchFreeFrom d i r = some i := by
  cases r with
  | zero => omega
  | succ r => simp [searchFreeFrom, h]

theorem searchChain_head_match (d : Nat → SurfaceHashEntry) (key : Nat)
    (e : Int) (f : Nat) (h : (d e.toNat).searchKey = key) (hf : 0 < f) :
    searchChain d key e f = some (d e.toNat).surfaceID := by
  cases f with
  | zero => omega
  | succ f => simp [searchChain, h]

theorem init_maxTextures (mt ms : Int) :
    (surfaceGeneratorInit mt ms).maxTextures = mt := rfl

theorem init_maxSurfaces (mt ms : Int) :
    (surfaceGeneratorInit mt ms).maxSurfaces = ms := rfl

theorem init_texTable (mt ms : Int) (j : Nat) :
    (surfaceGeneratorInit mt ms).textureHashTable j = -1 := rfl

theorem init_hashData (mt ms : Int) (i : Nat) :
    (surfaceGeneratorInit mt ms).hashCollisionData i = ⟨0, 0, -1⟩ := rfl

theorem init_surfTable (mt ms : Int) (j : Nat) :
    (surfaceGeneratorInit mt ms).surfaceTable j = ⟨-1, 0, 0, 0⟩ := rfl

theorem init_systemReady (mt ms : Int) :
    (surfaceGeneratorInit mt ms).systemReady = true := rfl

theorem init_nextSurfaceID (mt ms : Int) :
    (surfaceGeneratorInit mt ms).nextSurfaceID = 1 := rfl

theorem init_nextHashEntry (mt ms : Int) :
    (surfaceGeneratorInit mt ms).nextHashEntry = 0 := rfl

theorem init_lastError (mt ms : Int) :
    (surfaceGeneratorInit mt ms).lastProcessedEvent = false := rfl

theorem init_hashSize (mt ms : Int) :
    (surfaceGeneratorInit mt ms).hashCollisionSize = (ms * 2).toNat := rfl

theorem c4State1_maxTextures (pt : Nat) (tid : Int) (fl : Nat) :
    (c4State1 pt tid fl).maxTextures = 1000 := rfl

theorem c4State1_maxSurfaces (pt : Nat) (tid : Int) (fl : Nat) :
    (c4State1 pt tid fl).maxSurfaces = 2000 := rfl

theorem c4State1_hashSize (pt : Nat) (tid : Int) (fl : Nat) :
    (c4State1 pt tid fl).hashCollisionSize = 4000 := rfl

theorem c4State1_systemReady (pt : Nat) (tid : Int) (fl : Nat) :
    (c4State1 pt tid fl).systemReady = true := rfl

theorem c4State1_texTable (pt : Nat) (tid : Int) (fl : Nat) (j : Nat) :
    (c4State1 pt tid fl).textureHashTable j =
      if j = (tid + 1).toNat then 0 else -1 := rfl

theorem c4State1_hashData (pt : Nat) (tid : Int) (fl : Nat) (i : Nat) :
    (c4State1 pt tid fl).hashCollisionData i =
      if i = 0 then ⟨(pt <<< 16) ||| fl, 1, -1⟩ else ⟨0, 0, -1⟩ := rfl

theorem c4State1_surfTable (pt : Nat) (tid : Int) (fl : Nat) (j : Nat) :
    (c4State1 pt tid fl).surfaceTable j =
      if j = 1 then ⟨tid, pt, fl, if pt = 16646 then 3 else 1⟩
      else ⟨-1, 0, 0, 0⟩ := rfl

theorem getOrCreateSurface_fresh_call (pt fl : Nat) (tid : Int)
    (h1 : -1 ≤ tid) (h2 : tid < 1000) :
    getOrCreateSurface (surfaceGeneratorInit 1000 2000) pt tid fl =
      some (1, c4State1 pt tid fl) := by
  have ha : ¬ ((1000 : Int) ≤ tid ∨ tid < -1) := by omega
  have hmiss : getSurfaceHash (surfaceGeneratorInit 1000 2000) pt tid fl =
      some (0xFFFF, surfaceGeneratorInit 1000 2000) := by
    simp only [getSurfaceHash, init_maxTextures, init_systemReady, ha]
    norm_num [init_texTable]
  simp only [getOrCreateSurface, init_systemReady]
  norm_num [hmiss]
  norm_num [getNewSurface, init_maxSurfaces, init_nextSurfaceID, init_surfTable,
    init_lastError, entryIsActive, entrySetActive, initSurfaceEntry,
    isValidSurfaceID]
  have hand1 : (1 : Nat) &&& 65533 = 1 := by decide
  have hor3 : (1 : Nat) ||| 2 = 3 := by decide
  norm_num [setSurfaceInfo, updateSurfaceAlphaFlag, entrySetAlpha, entryIsActive,
    isValidSurfaceID, init_maxSurfaces, hand1, hor3]
  norm_num [addSurfaceHash, isValidSurfaceID, isValidTextureID, init_maxTextures,
    init_maxSurfaces, init_nextHashEntry, init_hashSize, init_hashData, init_texTable,
    findFreeHashEntry, searchFreeFrom_head, apply_ite SurfaceTableEntry.textureID,
    apply_ite SurfaceTableEntry.primitiveType, apply_ite SurfaceTableEntry.flags,
    ite_self, h1, h2, ge_iff_le, Int.toNat_ofNat]
  ext <;> simp only [c4State1] <;> try rfl
  rename_i j
  by_cases hj : j = 1 <;> by_cases hpt : pt = 16646 <;> simp [hj, hpt]

theorem getOrCreateSurface_repeat_call (pt fl : Nat) (tid : Int)
    (h1 : -1 ≤ tid) (h2 : tid < 1000) :
    getOrCreateSurface (c4State1 pt tid fl) pt tid fl =
      some (1, c4State1 pt tid fl) := by
  have ha : ¬ ((1000 : Int) ≤ tid ∨ tid < -1) := by omega
  have hand1 : (1 : Nat) &&& 65533 = 1 := by decide
  have hor3 : (1 : Nat) ||| 2 = 3 := by decide
  have hor32 : (3 : Nat) ||| 2 = 3 := by decide
  have hkey : getSurfaceHash (c4State1 pt tid fl) pt tid fl =
      some (1, c4State1 pt tid fl) := by
    simp only [getSurfaceHash, c4State1_maxTextures, c4State1_systemReady, ha]
    norm_num [searchChain_head_match, c4State1_texTable, c4State1_hashData,
      c4State1_hashSize]
  have hupd : updateSurfaceAlphaFlag (c4State1 pt tid fl) 1 =
      (true, c4State1 pt tid fl) := by
    have hstat : ¬ ((if pt = 16646 then (3 : Nat) else 1) % 2 = 0) := by
      by_cases hpt : pt = 16646 <;> simp [hpt]
    simp only [updateSurfaceAlphaFlag, isValidSurfaceID, c4State1_maxSurfaces,
      c4State1_surfTable, entryIsActive, entrySetAlpha]
    norm_num [apply_ite SurfaceTableEntry.status,
      apply_ite SurfaceTableEntry.primitiveType, hstat]
    ext <;> try rfl
    rename_i j
    by_cases hj : j = 1 <;> by_cases hpt : pt = 16646 <;>
      simp [hj, hpt, c4State1, hand1, hor32]
  simp only [getOrCreateSurface, c4State1_systemReady]
  norm_num [hkey, hupd]

/-- C4: surface-table idempotence: for any (primitive_type, texture_id,
flags) with the texture id in the valid range, two successive
get_or_create_surface calls on the freshly initialized default table return
the same surface id — which is 1 for the first surface ever created — and
the second call allocates nothing new. -/
theorem claim_C4_surfaceDedup (pt fl : Nat) (tid : Int)
    (h1 : -1 ≤ tid) (h2 : tid < 1000) :
    ∃ s1 s2,
      getOrCreateSurface (surfaceGeneratorInit 1000 2000) pt tid fl =
        some (1, s1) ∧
      getOrCreateSurface s1 pt tid fl = some (1, s2) ∧
      s2.nextSurfaceID = s1.nextSurfaceID ∧
      s2.nextHashEntry = s1.nextHashEntry :=
  ⟨c4State1 pt tid fl, c4State1 pt tid fl,
    getOrCreateSurface_fresh_call pt fl tid h1 h2,
    getOrCreateSurface_repeat_call pt fl tid h1 h2, rfl, rfl⟩

/-- Witness for C4 at the tuple (TriangleStrip 16646, texture 7, flags 0). -/
theorem claim_C4_surfaceDedup_witness :
    (-1 : Int) ≤ 7 ∧ (7 : Int) < 1000 ∧
    ∃ s1 s2,
      getOrCreateSurface (surfaceGeneratorInit 1000 2000) 16646 7 0 =
        some (1, s1) ∧
      getOrCreateSurface s1 16646 7 0 = some (1, s2) ∧
      s2.nextSurfaceID = s1.nextSurfaceID ∧
      s2.nextHashEntry = s1.nextHashEntry :=
  ⟨by norm_num, by norm_num,
    claim_C4_surfaceDedup 16646 0 7 (by norm_num) (by norm_num)⟩

/-- C5: the texture-indexed first-entry table is allocated with only
max_textures entries (not max_textures + 1), so the texture id 999 — which
the bounds check accepts under the default limits — makes the chain-head
access at index 999 + 1 = 1000 fall outside the allocated table, while a
table of length max_textures + 1 would contain it (code bug). -/
theorem claim_C5_textureTableBounds :
    (surfaceGeneratorInit 1000 2000).textureHashTableSize = 1000 ∧
    isValidTextureID (surfaceGeneratorInit 1000 2000) 999 = true ∧
    ¬ (((999 : Int) + 1).toNat <
        (surfaceGeneratorInit 1000 2000).textureHashTableSize) ∧
    ((999 : Int) + 1).toNat < 1000 + 1 := by
  refine ⟨rfl, by decide, by decide, by decide⟩

end Model3GM

namespace Model3GM

/-! ### The surface-limit scenario (C6) -/

theorem modelState_maxTextures (k : Nat) : (modelState k).maxTextures = 1000 := rfl

theorem modelState_maxSurfaces (k : Nat) : (modelState k).maxSurfaces = 2000 := rfl

theorem modelState_texTable (k j : Nat) :
    (modelState k).textureHashTable j = if j = 1 then (k : Int) - 1 else -1 := rfl

theorem modelState_hashSize (k : Nat) : (modelState k).hashCollisionSize = 4000 := rfl

theorem modelState_hashData (k i : Nat) :
    (modelState k).hashCollisionData i =
      if i < k then ⟨i, i + 1, (i : Int) - 1⟩ else ⟨0, 0, -1⟩ := rfl

theorem modelState_surfTable (k j : Nat) :
    (modelState k).surfaceTable j =
      if 1 ≤ j ∧ j ≤ k then ⟨0, 0, j - 1, 1⟩ else ⟨-1, 0, 0, 0⟩ := rfl

theorem modelState_systemReady (k : Nat) : (modelState k).systemReady = true := rfl

theorem modelState_nextSurfaceID (k : Nat) : (modelState k).nextSurfaceID = k + 1 := rfl

theorem modelState_nextHashEntry (k : Nat) : (modelState k).nextHashEntry = k := rfl

theorem modelState_lastError (k : Nat) : (modelState k).lastProcessedEvent = false := rfl

theorem searchChain_modelState_miss (k key : Nat) (hkey : k ≤ key) :
    ∀ j, j < k → ∀ fuel, j < fuel →
      searchChain (modelState k).hashCollisionData key ((j : Nat) : Int) fuel =
        some 0xFFFF := by
  intro j
  induction j with
  | zero =>
    intro h0 fuel hf
    cases fuel with
    | zero => omega
    | succ f =>
      have hne : ¬ ((0 : Nat) = key) := by omega
      simp [searchChain, modelState_hashData, h0, hne]
  | succ j ih =>
    intro hjk fuel hf
    cases fuel with
    | zero => omega
    | succ f =>
      have hne : ¬ ((j + 1 : Nat) = key) := by omega
      have hnext : ¬ (((j + 1 : Nat) : Int) - 1 = -1) := by
        push_cast
        omega
      have hstep : (((j + 1 : Nat) : Int) - 1) = ((j : Nat) : Int) := by
        push_cast
        ring
      simp only [searchChain, modelState_hashData]
      simp [hjk, hne, hnext, hstep]
      exact ih (by omega) f (by omega)

theorem getSurfaceHash_modelState_miss (k : Nat) (hk : k ≤ 1999) :
    getSurfaceHash (modelState k) 0 0 k = some (0xFFFF, modelState k) := by
  have ha : ¬ ((1000 : Int) ≤ (0 : Int) ∨ (0 : Int) < -1) := by norm_num
  simp only [getSurfaceHash, modelState_maxTextures, modelState_systemReady, ha]
  norm_num [modelState_texTable, modelState_hashSize]
  rcases Nat.eq_zero_or_pos k with hk0 | hkpos
  · subst hk0
    try norm_num
    try rfl
  · have hne : ¬ ((k : Int) - 1 = -1) := by omega
    have hcast : ((k : Int) - 1) = (((k - 1 : Nat)) : Int) := by omega
    rw [hcast] at hne ⊢
    intro _
    exact searchChain_modelState_miss k k (le_refl k) (k - 1) (by omega) 4001 (by omega)

theorem getOrCreate_modelState_step (k : Nat) (hk : k < 1999) :
    getOrCreateSurface (modelState k) 0 0 k = some (k + 1, modelState (k + 1)) := by
  have hmiss := getSurfaceHash_modelState_miss k (by omega)
  have hlim : ¬ ((2000 : Int) ≤ (k : Int) + 1) := by omega
  have hlt : (k : Int) + 1 < 2000 := by omega
  have hnotalloc : ¬ (1 ≤ k + 1 ∧ k + 1 ≤ k) := by omega
  have hand1 : (1 : Nat) &&& 65533 = 1 := by decide
  have hfree : 0 < 4000 - k := by omega
  have hk65 : ¬ (k = 65535) := by omega
  simp only [getOrCreateSurface, modelState_systemReady]
  norm_num [hmiss]
  norm_num [getNewSurface, modelState_maxSurfaces, modelState_nextSurfaceID,
    modelState_surfTable, modelState_lastError, entryIsActive, entrySetActive,
    initSurfaceEntry, isValidSurfaceID, hlim, hlt, hnotalloc, hand1]
  norm_num [setSurfaceInfo, updateSurfaceAlphaFlag, entrySetAlpha, entryIsActive,
    isValidSurfaceID, modelState_maxSurfaces, modelState_lastError, hlim, hlt, hand1]
  norm_num [addSurfaceHash, isValidSurfaceID, isValidTextureID, modelState_maxTextures,
    modelState_maxSurfaces, modelState_nextHashEntry, modelState_hashSize,
    modelState_hashData, modelState_texTable, findFreeHashEntry, searchFreeFrom_head,
    hlim, hlt, hfree, hk65]
  ext <;> try rfl
  · rename_i j
    by_cases hj : j = 1 <;> simp [modelState_texTable, hj]
  · rename_i i
    by_cases hik : i = k
    · subst hik
      simp [modelState_hashData, Nat.lt_succ_self]
    · by_cases hilt : i < k
      · simp [modelState_hashData, hik, hilt, (by omega : i < k + 1)]
      · simp [modelState_hashData, hik, hilt]
        rw [if_neg (by omega : ¬ i < k + 1)]
  · rename_i j
    by_cases hj : j = k + 1
    · subst hj
      simp [modelState_surfTable, (by omega : 1 ≤ k + 1 ∧ k + 1 ≤ k + 1)]
    · by_cases hin : 1 ≤ j ∧ j ≤ k
      · simp [modelState_surfTable, hj, hin, (by omega : 1 ≤ j ∧ j ≤ k + 1)]
      · simp [modelState_surfTable, hj, hin]
        rw [if_neg (by omega : ¬ (1 ≤ j ∧ j ≤ k + 1))]

theorem getOrCreate_modelState_fail :
    getOrCreateSurface (modelState 1999) 0 0 1999 =
      some (0, postEvent (modelState 1999) 2402) := by
  have hmiss := getSurfaceHash_modelState_miss 1999 (le_refl 1999)
  simp only [getOrCreateSurface, modelState_systemReady]
  norm_num [hmiss]
  norm_num [getNewSurface, modelState_maxSurfaces, modelState_nextSurfaceID, postEvent]

theorem modelState_zero : surfaceGeneratorInit 1000 2000 = modelState 0 := by
  ext <;> try rfl
  · rename_i j
    rw [init_texTable, modelState_texTable]
    by_cases hj : j = 1
    · rw [if_pos hj]
      norm_num
    · rw [if_neg hj]
  · rename_i j
    rw [init_surfTable, modelState_surfTable, if_neg (by omega : ¬ (1 ≤ j ∧ j ≤ 0))]

theorem runCalls_eq : ∀ k, k ≤ 1999 → runCalls k = some (modelState k) := by
  intro k
  induction k with
  | zero =>
    intro _
    simp [runCalls, modelState_zero]
  | succ k ih =>
    intro hk
    simp only [runCalls, ih (by omega)]
    rw [Option.some_bind, getOrCreate_modelState_step k (by omega)]
    rfl

/-- C6 counterexample: in the distinct-key call sequence (primitive_type 0,
texture_id 0, flags = call index) on the default-initialized table, calls
1..1999 succeed with ids 1..1999 but call 2000 already fails, returning
surface id 0 after posting the SurfaceLimit code 2402 — so it is false that
2401 distinct-key calls all succeed. -/
theorem claim_C6_counterexample :
    callResult 1998 = some 1999 ∧
    callResult 1999 = some 0 ∧
    ∃ s, (runCalls 1999).bind (fun t => getOrCreateSurface t 0 0 1999) =
        some (0, s) ∧ s.postedEvents = [2402] := by
  refine ⟨?_, ?_, ?_⟩
  · rw [callResult, runCalls_eq 1998 (by norm_num)]
    simp [getOrCreate_modelState_step 1998 (by norm_num)]
  · rw [callResult, runCalls_eq 1999 (le_refl _)]
    simp [getOrCreate_modelState_fail]
  · refine ⟨postEvent (modelState 1999) 2402, ?_, rfl⟩
    rw [runCalls_eq 1999 (le_refl _)]
    simp [getOrCreate_modelState_fail]

/-- C6 (amended): with the default capacity bounds (max_surfaces 2000,
max_textures 1000), 1999 sequential get_or_create_surface calls with
distinct keys succeed (call k + 1 returns surface id k + 1, ids 1..1999),
and the 2000th such call fails with the SurfaceLimit error (code 2402),
because GetNewSurface rejects nextSurfaceID = 2000 ≥ maxSurfaces. -/
theorem claim_C6_surfaceLimit (k : Nat) (hk : k < 1999) :
    callResult k = some (k + 1) ∧
    callResult 1999 = some 0 ∧
    ∃ s, (runCalls 1999).bind (fun t => getOrCreateSurface t 0 0 1999) =
        some (0, s) ∧ s.lastProcessedEvent = true ∧ s.postedEvents = [2402] := by
  refine ⟨?_, ?_, ?_⟩
  · rw [callResult, runCalls_eq k (by omega)]
    simp [getOrCreate_modelState_step k hk]
  · rw [callResult, runCalls_eq 1999 (le_refl _)]
    simp [getOrCreate_modelState_fail]
  · refine ⟨postEvent (modelState 1999) 2402, ?_, rfl, rfl⟩
    rw [runCalls_eq 1999 (le_refl _)]
    simp [getOrCreate_modelState_fail]

/-- Witness for C6 (amended) at the first call of the sequence. -/
theorem claim_C6_surfaceLimit_witness :
    (0 : Nat) < 1999 ∧ callResult 0 = some 1 :=
  ⟨by norm_num, (claim_C6_surfaceLimit 0 (by norm_num)).1⟩

end Model3GM
